import Mathlib

/-!
Verification of the Anthias Fleet Manager polling core: the async REST
client (`api.py`) and the fleet polling coordinator (`coordinator.py`).

Decoded JSON bodies are modelled by the `Json` inductive; the HTTP layer
(`_get`) is abstracted into a `Transport` record that gives, for each
endpoint, either the decoded body or a typed error (`ApiErr.auth` for
HTTP 401/403, `ApiErr.comm` for any other transport failure), exactly the
two exception classes `AnthiasAuthError < AnthiasApiError` of `api.py`.
The coordinator's awaits are sequenced explicitly; each endpoint is hit at
most once per call, so a deterministic per-call transport is faithful.
-/

set_option autoImplicit false

/-- A decoded JSON value (`resp.json()` result). Numbers are modelled as
integers; the claims under study involve no fractional arithmetic. -/
inductive Json where
  | null : Json
  | bool : Bool → Json
  | num : Int → Json
  | str : String → Json
  | arr : List Json → Json
  | obj : List (String × Json) → Json
deriving Repr

/-- Python truthiness (`if data:` / `or`): `None`, `False`, `0`, `""`,
`[]` and `\x7b\x7d` are falsy, everything else truthy. -/
def Json.truthy : Json → Bool
  | .null => false
  | .bool b => b
  | .num n => n != 0
  | .str s => s != ""
  | .arr xs => !xs.isEmpty
  | .obj fs => !fs.isEmpty

/-- Dictionary lookup (`d[k]` / `d.get(k)` on a parsed JSON object; parsed
objects have no duplicate keys, so first-match lookup is adequate). -/
def lookupField (k : String) : List (String × Json) → Option Json
  | [] => none
  | (k2, v) :: rest => if k2 = k then some v else lookupField k rest

/-- Python `str()` of a JSON scalar, as applied to `player["id"]`.
The repr of containers is abstracted (ids are scalars in practice). -/
def pyStr : Json → String
  | .str s => s
  | .num n => toString n
  | .bool true => "True"
  | .bool false => "False"
  | .null => "None"
  | .arr _ => "<list>"
  | .obj _ => "<dict>"

/-- Python iteration `for x in data`: lists yield elements, strings yield
one-character strings, dicts yield their keys; other values raise
`TypeError` (modelled as `none`). -/
def pyIter : Json → Option (List Json)
  | .arr xs => some xs
  | .str s => some (s.toList.map (fun c => .str (String.mk [c])))
  | .obj fs => some (fs.map (fun p => .str p.1))
  | _ => none

/-- The two typed errors of `api.py`: `AnthiasAuthError` (HTTP 401/403)
and a generic `AnthiasApiError` communication failure. -/
inductive ApiErr where
  | auth : ApiErr
  | comm : ApiErr
deriving DecidableEq, Repr

/-- One refresh cycle's view of the Fleet Manager REST service: for each
endpoint the coordinator may hit, the decoded JSON body or the typed
error that `_get` would raise. -/
structure Transport where
  players : Except ApiErr Json
  playerInfo : String → Except ApiErr Json
  cecStatus : String → Except ApiErr Json
  nowPlaying : String → Except ApiErr Json
  scheduleSlots : String → Except ApiErr Json
  scheduleStatus : String → Except ApiErr Json
  mediaFiles : Except ApiErr Json

namespace AnthiasFleetManagerApi

/-- `if isinstance(data, dict) and "results" in data: return data["results"]`
— unwrap a DRF paginated envelope. -/
def unwrapResults (data : Json) : Json :=
  match data with
  | .obj fs =>
    match lookupField "results" fs with
    | some v => v
    | none => .obj fs
  | _ => data

/-- `async_get_players` of `api.py`. -/
def async_get_players (t : Transport) : Except ApiErr Json :=
  t.players.map unwrapResults

/-- `async_get_player_info` of `api.py`. -/
def async_get_player_info (t : Transport) (player_id : String) : Except ApiErr Json :=
  t.playerInfo player_id

/-- `async_get_cec_status` of `api.py`. -/
def async_get_cec_status (t : Transport) (player_id : String) : Except ApiErr Json :=
  t.cecStatus player_id

/-- `async_get_now_playing` of `api.py`: `if not data: return None`. -/
def async_get_now_playing (t : Transport) (player_id : String) : Except ApiErr Json :=
  (t.nowPlaying player_id).map (fun data => if data.truthy then data else .null)

/-- `async_get_schedule_slots` of `api.py` (paginated-envelope unwrap). -/
def async_get_schedule_slots (t : Transport) (player_id : String) : Except ApiErr Json :=
  (t.scheduleSlots player_id).map unwrapResults

/-- `async_get_schedule_status` of `api.py`. -/
def async_get_schedule_status (t : Transport) (player_id : String) : Except ApiErr Json :=
  t.scheduleStatus player_id

/-- `async_get_media_files` of `api.py` (paginated-envelope unwrap). -/
def async_get_media_files (t : Transport) : Except ApiErr Json :=
  t.mediaFiles.map unwrapResults

end AnthiasFleetManagerApi

namespace AnthiasCoordinator

/-- One Player Snapshot entry, the dict built per player by
`_async_update_data` in `coordinator.py`. -/
structure Entry where
  id : String
  name : Json
  is_online : Json
  last_seen : Json
  info : Json
  cec : Json
  now_playing : Json
  schedule_slots : Json
  schedule_status : Json
deriving Repr

/-- `player.get("last_status") or \x7b\x7d`, then `if last_status:` —
the `info` value seeded from the list record's embedded status. -/
def seedInfo (fs : List (String × Json)) : Json :=
  match lookupField "last_status" fs with
  | some v => if v.truthy then v else .obj []
  | none => .obj []

/-- The entry dict as first built from the list record (lines 74–89 of
`coordinator.py`), before any per-player sub-fetch. -/
def seedEntry (pid : String) (fs : List (String × Json)) : Entry :=
  { id := pid
    name := (lookupField "name" fs).getD (.str pid)
    is_online := (lookupField "is_online" fs).getD (.bool false)
    last_seen := (lookupField "last_seen" fs).getD .null
    info := seedInfo fs
    cec := .obj []
    now_playing := .null
    schedule_slots := .arr []
    schedule_status := .obj [] }

/-- The five per-player sub-fetches (lines 92–123 of `coordinator.py`),
each in its own `try/except AnthiasApiError` that keeps the pre-seeded
value on failure.  `AnthiasAuthError` is a subclass of `AnthiasApiError`,
so both `ApiErr` variants are swallowed. -/
def fetchOnline (t : Transport) (pid : String) (e0 : Entry) : Entry :=
  let e1 := match AnthiasFleetManagerApi.async_get_player_info t pid with
    | .ok v => { e0 with info := v }
    | .error _ => e0
  let e2 := match AnthiasFleetManagerApi.async_get_cec_status t pid with
    | .ok v => { e1 with cec := v }
    | .error _ => e1
  let e3 := match AnthiasFleetManagerApi.async_get_now_playing t pid with
    | .ok v => { e2 with now_playing := v }
    | .error _ => e2
  let e4 := match AnthiasFleetManagerApi.async_get_schedule_slots t pid with
    | .ok v => { e3 with schedule_slots := v }
    | .error _ => e3
  match AnthiasFleetManagerApi.async_get_schedule_status t pid with
    | .ok v => { e4 with schedule_status := v }
    | .error _ => e4

/-- The loop body for one player record: `pid = str(player["id"])`
(`none` models the KeyError/TypeError a malformed record raises), seed
the entry, and for a truthy `is_online` run the sub-fetches. -/
def buildEntry (t : Transport) (player : Json) : Option Entry :=
  match player with
  | .obj fs =>
    match lookupField "id" fs with
    | none => none
    | some idJ =>
      let pid := pyStr idJ
      let e := seedEntry pid fs
      some (if e.is_online.truthy then fetchOnline t pid e else e)
  | _ => none

/-- The Fleet Snapshot: `result`, a dict keyed by player id. -/
abbrev Snapshot := List (String × Entry)

/-- `result[pid] = entry`: Python dict assignment — overwrite in place if
the key is present, else append. -/
def dictInsert (m : Snapshot) (k : String) (v : Entry) : Snapshot :=
  if m.any (fun p => p.1 = k) then
    m.map (fun p => if p.1 = k then (k, v) else p)
  else
    m ++ [(k, v)]

/-- The `for player in players` loop of `_async_update_data`, with the
accumulated `result` dict; `none` models an unhandled exception on a
malformed record. -/
def buildSnapshot (t : Transport) : List Json → Snapshot → Option Snapshot
  | [], acc => some acc
  | p :: rest, acc =>
    match buildEntry t p with
    | none => none
    | some e => buildSnapshot t rest (dictInsert acc e.id e)

/-- How one refresh cycle ends when it does not return a snapshot:
`ConfigEntryAuthFailed` (raised for `AnthiasAuthError`), `UpdateFailed`
(raised for any other `AnthiasApiError`), or an unhandled exception on a
malformed player-list payload. -/
inductive RefreshError where
  | authFailed : RefreshError
  | updateFailed : RefreshError
  | unexpected : RefreshError
deriving DecidableEq, Repr

/-- `_async_update_data` of `coordinator.py`. -/
def async_update_data (t : Transport) : Except RefreshError Snapshot :=
  match AnthiasFleetManagerApi.async_get_players t with
  | .error .auth => .error .authFailed
  | .error .comm => .error .updateFailed
  | .ok data =>
    match pyIter data with
    | none => .error .unexpected
    | some records =>
      match buildSnapshot t records [] with
      | none => .error .unexpected
      | some s => .ok s

/-- Modelled from the spec: the Poll Scheduler / Publisher (§4.4, the
host's `DataUpdateCoordinator`, not part of this repository) publishes a
successful cycle's snapshot and sets the success flag; on any failed
cycle it retains the previously published snapshot and clears the flag. -/
def publishCycle (prev : Option Snapshot) (res : Except RefreshError Snapshot) :
    Option Snapshot × Bool :=
  match res with
  | .ok s => (some s, true)
  | .error _ => (prev, false)

/-- `MEDIA_CACHE_TTL = 300`. -/
def MEDIA_CACHE_TTL : Nat := 300

/-- The coordinator's media-cache fields `_media_cache` (initially `[]`)
and `_media_cache_ts` (initially `0`, `time.monotonic()` modelled as a
nondecreasing natural). -/
structure MediaCacheState where
  media_cache : Json
  media_cache_ts : Nat
deriving Repr

/-- `async_get_media_files` of `coordinator.py`, as a state transformer:
result, new cache state, and the number of network calls issued (0 or 1).
A failed fetch raises before either assignment, so the state is returned
unchanged on the error path. -/
def async_get_media_files (t : Transport) (now : Nat) (st : MediaCacheState) :
    Except ApiErr Json × MediaCacheState × Nat :=
  if now - st.media_cache_ts < MEDIA_CACHE_TTL ∧ st.media_cache.truthy = true then
    (.ok st.media_cache, st, 0)
  else
    match AnthiasFleetManagerApi.async_get_media_files t with
    | .error e => (.error e, st, 1)
    | .ok files => (.ok files, { media_cache := files, media_cache_ts := now }, 1)

end AnthiasCoordinator

namespace AnthiasCoordinator

/-- A player-list record the loop body can process without raising:
a mapping that contains an `id` field. -/
def wellFormedRecord : Json → Bool
  | .obj fs => (lookupField "id" fs).isSome
  | _ => false

/-- The five sequential try/except blocks act on disjoint fields, so
`fetchOnline` is the simultaneous field-wise update: each field is its
own sub-fetch's result when that sub-fetch succeeds and the pre-seeded
value otherwise. -/
theorem fetchOnline_eq (t : Transport) (pid : String) (e : Entry) :
    fetchOnline t pid e =
      { e with
        info := match AnthiasFleetManagerApi.async_get_player_info t pid with
          | .ok v => v
          | .error _ => e.info
        cec := match AnthiasFleetManagerApi.async_get_cec_status t pid with
          | .ok v => v
          | .error _ => e.cec
        now_playing := match AnthiasFleetManagerApi.async_get_now_playing t pid with
          | .ok v => v
          | .error _ => e.now_playing
        schedule_slots := match AnthiasFleetManagerApi.async_get_schedule_slots t pid with
          | .ok v => v
          | .error _ => e.schedule_slots
        schedule_status := match AnthiasFleetManagerApi.async_get_schedule_status t pid with
          | .ok v => v
          | .error _ => e.schedule_status } := by
  unfold fetchOnline
  cases AnthiasFleetManagerApi.async_get_player_info t pid <;>
    cases AnthiasFleetManagerApi.async_get_cec_status t pid <;>
      cases AnthiasFleetManagerApi.async_get_now_playing t pid <;>
        cases AnthiasFleetManagerApi.async_get_schedule_slots t pid <;>
          cases AnthiasFleetManagerApi.async_get_schedule_status t pid <;> rfl

theorem buildEntry_isSome_of_wf (t : Transport) (p : Json)
    (h : wellFormedRecord p = true) : (buildEntry t p).isSome = true := by
  cases p <;> simp [wellFormedRecord] at h
  case obj fs =>
    cases hid : lookupField "id" fs with
    | none => simp [hid] at h
    | some idJ => simp [buildEntry, hid]

theorem buildSnapshot_isSome_of_wf (t : Transport) (ps : List Json)
    (h : ∀ p ∈ ps, wellFormedRecord p = true) (acc : Snapshot) :
    (buildSnapshot t ps acc).isSome = true := by
  induction ps generalizing acc with
  | nil => simp [buildSnapshot]
  | cons p rest ih =>
    have hp := h p (List.mem_cons_self p rest)
    cases he : buildEntry t p with
    | none =>
      have hs := buildEntry_isSome_of_wf t p hp
      rw [he] at hs
      cases hs
    | some e =>
      have := fun q hq => h q (List.mem_cons_of_mem p hq)
      simp [buildSnapshot, he, ih this]

theorem mem_keys_dictInsert (m : Snapshot) (k : String) (v : Entry) (x : String) :
    x ∈ (dictInsert m k v).map Prod.fst ↔ x ∈ m.map Prod.fst ∨ x = k := by
  unfold dictInsert
  by_cases h : m.any (fun p => p.1 = k)
  · have hmem : k ∈ m.map Prod.fst := by
      rcases List.any_eq_true.mp h with ⟨p, hp, hk⟩
      exact List.mem_map.mpr ⟨p, hp, of_decide_eq_true hk⟩
    have hkeys : (m.map (fun p => if p.1 = k then (k, v) else p)).map Prod.fst
        = m.map Prod.fst := by
      rw [List.map_map]
      apply List.map_congr_left
      intro p _
      by_cases hpk : p.1 = k <;> simp [hpk]
    rw [if_pos h, hkeys]
    constructor
    · exact Or.inl
    · rintro (hx | rfl)
      · exact hx
      · exact hmem
  · rw [if_neg h]
    simp

theorem buildSnapshot_keys (t : Transport) (ps : List Json) (acc s : Snapshot)
    (h : buildSnapshot t ps acc = some s) (x : String) :
    x ∈ s.map Prod.fst ↔
      x ∈ acc.map Prod.fst ∨
        ∃ p ∈ ps, ∃ e, buildEntry t p = some e ∧ e.id = x := by
  induction ps generalizing acc with
  | nil =>
    simp only [buildSnapshot] at h
    cases h
    simp
  | cons p rest ih =>
    simp only [buildSnapshot] at h
    cases he : buildEntry t p with
    | none => rw [he] at h; cases h
    | some e =>
      rw [he] at h
      rw [ih (dictInsert acc e.id e) h, mem_keys_dictInsert]
      constructor
      · rintro ((hx | rfl) | ⟨q, hq, f, hf, hfx⟩)
        · exact Or.inl hx
        · exact Or.inr ⟨p, List.mem_cons_self p rest, e, he, rfl⟩
        · exact Or.inr ⟨q, List.mem_cons_of_mem p hq, f, hf, hfx⟩
      · rintro (hx | ⟨q, hq, f, hf, hfx⟩)
        · exact Or.inl (Or.inl hx)
        · rcases List.mem_cons.mp hq with rfl | hq2
          · rw [he] at hf
            cases hf
            exact Or.inl (Or.inr hfx.symm)
          · exact Or.inr ⟨q, hq2, f, hf, hfx⟩

theorem buildEntry_obj (t : Transport) (fs : List (String × Json)) (idJ : Json)
    (hid : lookupField "id" fs = some idJ) :
    buildEntry t (.obj fs) =
      some (if (seedEntry (pyStr idJ) fs).is_online.truthy then
              fetchOnline t (pyStr idJ) (seedEntry (pyStr idJ) fs)
            else seedEntry (pyStr idJ) fs) := by
  simp [buildEntry, hid]

end AnthiasCoordinator

/-- The Python-falsy JSON values, exhaustively. -/
theorem Json.truthy_eq_false_iff (d : Json) :
    d.truthy = false ↔
      (d = .null ∨ d = .bool false ∨ d = .num 0 ∨ d = .str "" ∨
        d = .arr [] ∨ d = .obj []) := by
  cases d with
  | null => simp [Json.truthy]
  | bool b => cases b <;> simp [Json.truthy]
  | num n => simp [Json.truthy]
  | str s => simp [Json.truthy]
  | arr xs => simp [Json.truthy]
  | obj fs => simp [Json.truthy]

namespace AnthiasCoordinator

theorem fetchOnline_id (t : Transport) (pid : String) (e : Entry) :
    (fetchOnline t pid e).id = e.id := by
  rw [fetchOnline_eq]

@[simp] theorem seedEntry_id (pid : String) (fs : List (String × Json)) :
    (seedEntry pid fs).id = pid := rfl

@[simp] theorem seedEntry_cec (pid : String) (fs : List (String × Json)) :
    (seedEntry pid fs).cec = .obj [] := rfl

@[simp] theorem seedEntry_now_playing (pid : String) (fs : List (String × Json)) :
    (seedEntry pid fs).now_playing = .null := rfl

@[simp] theorem seedEntry_schedule_slots (pid : String) (fs : List (String × Json)) :
    (seedEntry pid fs).schedule_slots = .arr [] := rfl

@[simp] theorem seedEntry_schedule_status (pid : String) (fs : List (String × Json)) :
    (seedEntry pid fs).schedule_status = .obj [] := rfl

@[simp] theorem seedEntry_info (pid : String) (fs : List (String × Json)) :
    (seedEntry pid fs).info = seedInfo fs := rfl

@[simp] theorem seedEntry_is_online (pid : String) (fs : List (String × Json)) :
    (seedEntry pid fs).is_online = (lookupField "is_online" fs).getD (.bool false) := rfl

/-- `_async_update_data`, characterized by cases on the raw player-list
response. -/
theorem async_update_data_eq (t : Transport) :
    async_update_data t =
      match t.players with
      | .error .auth => .error .authFailed
      | .error .comm => .error .updateFailed
      | .ok data =>
        match pyIter (AnthiasFleetManagerApi.unwrapResults data) with
        | none => .error .unexpected
        | some records =>
          match buildSnapshot t records [] with
          | none => .error .unexpected
          | some s => .ok s := by
  unfold async_update_data AnthiasFleetManagerApi.async_get_players
  cases t.players with
  | error e => cases e <;> rfl
  | ok data => rfl

/-- When the player-list call decodes to a bare array, the cycle reduces
to the snapshot-building loop. -/
theorem async_update_data_ok (t : Transport) (rs : List Json)
    (hp : AnthiasFleetManagerApi.async_get_players t = .ok (.arr rs)) :
    async_update_data t =
      (match buildSnapshot t rs [] with
        | none => .error .unexpected
        | some s => .ok s) := by
  unfold async_update_data
  rw [hp]
  rfl

theorem async_get_players_ok_arr (t : Transport) (rs : List Json)
    (hp : t.players = .ok (.arr rs)) :
    AnthiasFleetManagerApi.async_get_players t = .ok (.arr rs) := by
  unfold AnthiasFleetManagerApi.async_get_players
  rw [hp]
  rfl

/-- A cycle whose player-list fetch decodes to a list of well-formed
records completes successfully. -/
theorem async_update_data_isOk_of_wf (t : Transport) (rs : List Json)
    (hp : t.players = .ok (.arr rs))
    (hwf : ∀ r ∈ rs, wellFormedRecord r = true) :
    (async_update_data t).isOk = true := by
  rw [async_update_data_ok t rs (async_get_players_ok_arr t rs hp)]
  cases hbs : buildSnapshot t rs [] with
  | none =>
    have hs := buildSnapshot_isSome_of_wf t rs hwf []
    rw [hbs] at hs
    cases hs
  | some s => rfl

/-- `ConfigEntryAuthFailed` can only come from the player-list call. -/
theorem authFailed_only_from_list (t : Transport)
    (h : t.players ≠ .error .auth) :
    async_update_data t ≠ .error .authFailed := by
  intro hcon
  rw [async_update_data_eq t] at hcon
  split at hcon
  · next heq => exact h heq
  · next => simp at hcon
  · next =>
    split at hcon
    · simp at hcon
    · split at hcon <;> simp at hcon

/-- Which records yield an entry, and under which key. -/
theorem buildEntry_some_id_iff (t : Transport) (p : Json) (k : String) :
    (∃ e, buildEntry t p = some e ∧ e.id = k) ↔
      ∃ fs, p = .obj fs ∧ ∃ idJ, lookupField "id" fs = some idJ ∧ pyStr idJ = k := by
  cases p with
  | obj fs =>
    cases hid : lookupField "id" fs with
    | none => simp [buildEntry, hid]
    | some idJ =>
      simp only [buildEntry, hid, Option.some.injEq]
      constructor
      · rintro ⟨e, he, hk⟩
        refine ⟨fs, rfl, idJ, hid, ?_⟩
        subst he
        rw [← hk]
        by_cases hon : (seedEntry (pyStr idJ) fs).is_online.truthy = true
        · rw [if_pos hon, fetchOnline_id, seedEntry_id]
        · rw [if_neg hon, seedEntry_id]
      · rintro ⟨fs2, hfs, idJ2, hl, hk⟩
        injection hfs with hfs2
        subst hfs2
        rw [hid] at hl
        injection hl with hl2
        subst hl2
        refine ⟨_, rfl, ?_⟩
        by_cases hon : (seedEntry (pyStr idJ) fs).is_online.truthy = true
        · rw [if_pos hon, fetchOnline_id, seedEntry_id]; exact hk
        · rw [if_neg hon, seedEntry_id]; exact hk
  | null => simp [buildEntry]
  | bool b => simp [buildEntry]
  | num n => simp [buildEntry]
  | str s => simp [buildEntry]
  | arr xs => simp [buildEntry]

/-- The snapshot-building loop never reads the `players` field of the
transport: only the per-player endpoints matter. -/
theorem buildSnapshot_players_irrel (t : Transport) (a b : Except ApiErr Json)
    (ps : List Json) (acc : Snapshot) :
    buildSnapshot { t with players := a } ps acc =
      buildSnapshot { t with players := b } ps acc := by
  induction ps generalizing acc with
  | nil => rfl
  | cons p rest ih =>
    have hbe : buildEntry { t with players := a } p =
        buildEntry { t with players := b } p := rfl
    simp only [buildSnapshot, hbe]
    cases buildEntry { t with players := b } p with
    | none => rfl
    | some e => exact ih (dictInsert acc e.id e)

end AnthiasCoordinator

namespace AnthiasCoordinator

/-- A transport on which every endpoint fails with a communication error. -/
def tZero : Transport :=
  { players := .error .comm
    playerInfo := fun _ => .error .comm
    cecStatus := fun _ => .error .comm
    nowPlaying := fun _ => .error .comm
    scheduleSlots := fun _ => .error .comm
    scheduleStatus := fun _ => .error .comm
    mediaFiles := .error .comm }

/-- A transport whose player list holds one well-formed offline record. -/
def tKeys : Transport :=
  { tZero with players := .ok (.arr [.obj [("id", .str "p1")]]) }

/-- A transport whose player list succeeds but holds a record with no
`id` field. -/
def tBadRecord : Transport :=
  { tZero with players := .ok (.arr [.obj []]) }

/-- The §8 scenario transport: one online player with an embedded
`last_status`, and five succeeding sub-fetches with distinct payloads. -/
def tScenario : Transport :=
  { players := .ok (.arr [.obj [("id", .str "p1"), ("name", .str "Lobby"),
      ("is_online", .bool true), ("last_status", .obj [("cpu_usage", .num 10)])]])
    playerInfo := fun _ => .ok (.obj [("cpu_usage", .num 55)])
    cecStatus := fun _ => .ok (.obj [("cec_available", .bool true), ("tv_on", .bool true)])
    nowPlaying := fun _ => .ok (.obj [("asset_id", .str "a1")])
    scheduleSlots := fun _ => .ok (.arr [.obj [("id", .num 7)]])
    scheduleStatus := fun _ => .ok (.obj [("active_slot", .null)])
    mediaFiles := .error .comm }

/-- C1: for a player record whose `is_online` field is absent or `false`,
the built snapshot entry is exactly the pre-seeded entry — `cec`,
`now_playing`, `schedule_slots` and `schedule_status` hold their default
empty values regardless of the transport (the entry is identical under
any two transports), and `info` is populated only from the record's
embedded `last_status`. -/
theorem offline_entry_defaults (t t2 : Transport) (fs : List (String × Json)) (idJ : Json)
    (hid : lookupField "id" fs = some idJ)
    (hoff : lookupField "is_online" fs = none ∨
      lookupField "is_online" fs = some (.bool false)) :
    buildEntry t (.obj fs) = some (seedEntry (pyStr idJ) fs) ∧
    buildEntry t2 (.obj fs) = buildEntry t (.obj fs) ∧
    (seedEntry (pyStr idJ) fs).cec = .obj [] ∧
    (seedEntry (pyStr idJ) fs).now_playing = .null ∧
    (seedEntry (pyStr idJ) fs).schedule_slots = .arr [] ∧
    (seedEntry (pyStr idJ) fs).schedule_status = .obj [] ∧
    (seedEntry (pyStr idJ) fs).info = seedInfo fs := by
  have honl : (seedEntry (pyStr idJ) fs).is_online.truthy = false := by
    rcases hoff with h | h <;> simp [h, Json.truthy]
  refine ⟨?_, ?_, rfl, rfl, rfl, rfl, rfl⟩
  · rw [buildEntry_obj t fs idJ hid, honl]
    simp
  · rw [buildEntry_obj t fs idJ hid, buildEntry_obj t2 fs idJ hid, honl]
    simp

/-- C1 witness: a concrete offline record, built over the all-failing
transport. -/
theorem offline_entry_defaults_witness :
    buildEntry tZero (.obj [("id", Json.str "p1")]) =
      some (seedEntry (pyStr (.str "p1")) [("id", Json.str "p1")]) ∧
    buildEntry tScenario (.obj [("id", Json.str "p1")]) =
      buildEntry tZero (.obj [("id", Json.str "p1")]) ∧
    (seedEntry (pyStr (.str "p1")) [("id", Json.str "p1")]).cec = .obj [] ∧
    (seedEntry (pyStr (.str "p1")) [("id", Json.str "p1")]).now_playing = .null ∧
    (seedEntry (pyStr (.str "p1")) [("id", Json.str "p1")]).schedule_slots = .arr [] ∧
    (seedEntry (pyStr (.str "p1")) [("id", Json.str "p1")]).schedule_status = .obj [] ∧
    (seedEntry (pyStr (.str "p1")) [("id", Json.str "p1")]).info =
      seedInfo [("id", Json.str "p1")] :=
  offline_entry_defaults tZero tScenario [("id", Json.str "p1")] (.str "p1") rfl
    (Or.inl rfl)

/-- C6: a paginated player-list envelope and the bare array of the same
records produce identical refresh-cycle results, for every transport. -/
theorem paginated_bare_same_snapshot (t : Transport) (records : List Json) :
    async_update_data { t with players := .ok (.obj [("results", .arr records)]) } =
      async_update_data { t with players := .ok (.arr records) } := by
  have h1 : AnthiasFleetManagerApi.async_get_players
      { t with players := Except.ok (Json.obj [("results", Json.arr records)]) } =
      .ok (.arr records) := rfl
  have h2 : AnthiasFleetManagerApi.async_get_players
      { t with players := Except.ok (Json.arr records) } = .ok (.arr records) := rfl
  rw [async_update_data_ok _ records h1, async_update_data_ok _ records h2,
    buildSnapshot_players_irrel t (Except.ok (Json.obj [("results", Json.arr records)]))
      (Except.ok (Json.arr records)) records []]

/-- C7 (§8 scenario): one online player whose five sub-fetches succeed
with distinct payloads — the snapshot entry carries the live info payload
(the embedded `last_status` value is distinct and overwritten),
`is_online = true`, and the four sub-resource payloads. -/
theorem online_scenario_snapshot :
    async_update_data tScenario = .ok [("p1",
      { id := "p1"
        name := .str "Lobby"
        is_online := .bool true
        last_seen := .null
        info := .obj [("cpu_usage", .num 55)]
        cec := .obj [("cec_available", .bool true), ("tv_on", .bool true)]
        now_playing := .obj [("asset_id", .str "a1")]
        schedule_slots := .arr [.obj [("id", .num 7)]]
        schedule_status := .obj [("active_slot", .null)] })] ∧
    Json.obj [("cpu_usage", Json.num 55)] ≠ Json.obj [("cpu_usage", Json.num 10)] := by
  refine ⟨rfl, ?_⟩
  simp

end AnthiasCoordinator

namespace AnthiasCoordinator

/-- C2: for an online player, when exactly one of the five sub-fetches
fails with a communication error, the entry's corresponding field keeps
its pre-seeded default while every other sub-fetch's successful payload
appears in the same entry, and a cycle whose list fetch decoded to
well-formed records still completes successfully. -/
theorem online_single_failure_isolated (t : Transport) (fs : List (String × Json))
    (idJ : Json) (hid : lookupField "id" fs = some idJ)
    (hon : ((lookupField "is_online" fs).getD (.bool false)).truthy = true) :
    (∀ c n s1 s2, t.playerInfo (pyStr idJ) = .error .comm →
      t.cecStatus (pyStr idJ) = .ok c → t.nowPlaying (pyStr idJ) = .ok n →
      t.scheduleSlots (pyStr idJ) = .ok s1 → t.scheduleStatus (pyStr idJ) = .ok s2 →
      buildEntry t (.obj fs) = some { seedEntry (pyStr idJ) fs with
        cec := c
        now_playing := if n.truthy then n else .null
        schedule_slots := AnthiasFleetManagerApi.unwrapResults s1
        schedule_status := s2 }) ∧
    (∀ i n s1 s2, t.playerInfo (pyStr idJ) = .ok i →
      t.cecStatus (pyStr idJ) = .error .comm → t.nowPlaying (pyStr idJ) = .ok n →
      t.scheduleSlots (pyStr idJ) = .ok s1 → t.scheduleStatus (pyStr idJ) = .ok s2 →
      buildEntry t (.obj fs) = some { seedEntry (pyStr idJ) fs with
        info := i
        now_playing := if n.truthy then n else .null
        schedule_slots := AnthiasFleetManagerApi.unwrapResults s1
        schedule_status := s2 }) ∧
    (∀ i c s1 s2, t.playerInfo (pyStr idJ) = .ok i →
      t.cecStatus (pyStr idJ) = .ok c → t.nowPlaying (pyStr idJ) = .error .comm →
      t.scheduleSlots (pyStr idJ) = .ok s1 → t.scheduleStatus (pyStr idJ) = .ok s2 →
      buildEntry t (.obj fs) = some { seedEntry (pyStr idJ) fs with
        info := i
        cec := c
        schedule_slots := AnthiasFleetManagerApi.unwrapResults s1
        schedule_status := s2 }) ∧
    (∀ i c n s2, t.playerInfo (pyStr idJ) = .ok i →
      t.cecStatus (pyStr idJ) = .ok c → t.nowPlaying (pyStr idJ) = .ok n →
      t.scheduleSlots (pyStr idJ) = .error .comm → t.scheduleStatus (pyStr idJ) = .ok s2 →
      buildEntry t (.obj fs) = some { seedEntry (pyStr idJ) fs with
        info := i
        cec := c
        now_playing := if n.truthy then n else .null
        schedule_status := s2 }) ∧
    (∀ i c n s1, t.playerInfo (pyStr idJ) = .ok i →
      t.cecStatus (pyStr idJ) = .ok c → t.nowPlaying (pyStr idJ) = .ok n →
      t.scheduleSlots (pyStr idJ) = .ok s1 → t.scheduleStatus (pyStr idJ) = .error .comm →
      buildEntry t (.obj fs) = some { seedEntry (pyStr idJ) fs with
        info := i
        cec := c
        now_playing := if n.truthy then n else .null
        schedule_slots := AnthiasFleetManagerApi.unwrapResults s1 }) ∧
    (∀ rs, t.players = .ok (.arr rs) → (∀ r ∈ rs, wellFormedRecord r = true) →
      (async_update_data t).isOk = true) := by
  have hon2 : (seedEntry (pyStr idJ) fs).is_online.truthy = true := by
    rw [seedEntry_is_online]
    exact hon
  refine ⟨?_, ?_, ?_, ?_, ?_, fun rs hp hwf => async_update_data_isOk_of_wf t rs hp hwf⟩ <;>
    intro a b c d h1 h2 h3 h4 h5 <;>
      rw [buildEntry_obj t fs idJ hid, if_pos hon2, fetchOnline_eq] <;>
        simp [AnthiasFleetManagerApi.async_get_player_info,
          AnthiasFleetManagerApi.async_get_cec_status,
          AnthiasFleetManagerApi.async_get_now_playing,
          AnthiasFleetManagerApi.async_get_schedule_slots,
          AnthiasFleetManagerApi.async_get_schedule_status, Except.map,
          h1, h2, h3, h4, h5]

/-- A transport with one online player whose CEC sub-fetch fails and
whose four other sub-fetches succeed. -/
def tOneFail : Transport :=
  { players := .ok (.arr [.obj [("id", .str "p1"), ("is_online", .bool true)]])
    playerInfo := fun _ => .ok (.obj [("cpu_usage", .num 1)])
    cecStatus := fun _ => .error .comm
    nowPlaying := fun _ => .ok (.obj [("asset_id", .num 2)])
    scheduleSlots := fun _ => .ok (.arr [])
    scheduleStatus := fun _ => .ok (.obj [("active_slot", .null)])
    mediaFiles := .error .comm }

/-- C2 witness: the CEC sub-fetch fails on a concrete transport; the
other four payloads land in the entry and the cycle succeeds. -/
theorem online_single_failure_isolated_witness :
    buildEntry tOneFail (.obj [("id", Json.str "p1"), ("is_online", Json.bool true)]) =
      some { seedEntry "p1" [("id", Json.str "p1"), ("is_online", Json.bool true)] with
        info := Json.obj [("cpu_usage", Json.num 1)]
        now_playing := Json.obj [("asset_id", Json.num 2)]
        schedule_slots := Json.arr []
        schedule_status := Json.obj [("active_slot", Json.null)] } ∧
    (async_update_data tOneFail).isOk = true := by
  have h := online_single_failure_isolated tOneFail
    [("id", Json.str "p1"), ("is_online", Json.bool true)] (Json.str "p1") rfl rfl
  refine ⟨?_, ?_⟩
  · exact h.2.1 (Json.obj [("cpu_usage", Json.num 1)]) (Json.obj [("asset_id", Json.num 2)])
      (Json.arr []) (Json.obj [("active_slot", Json.null)]) rfl rfl rfl rfl rfl
  · exact h.2.2.2.2.2 [Json.obj [("id", Json.str "p1"), ("is_online", Json.bool true)]]
      rfl (by simp [wellFormedRecord, lookupField])

end AnthiasCoordinator

namespace AnthiasCoordinator

/-- C8: for an online player, an `AnthiasAuthError` raised by any one of
the five sub-fetches is swallowed exactly like a communication error: the
corresponding field keeps its pre-seeded default, the entry is the same
as if that sub-fetch had failed with a communication error, the cycle
never surfaces the credential failure from a sub-fetch, and a cycle over
well-formed records still completes successfully. -/
theorem subfetch_auth_swallowed (t : Transport) (fs : List (String × Json))
    (idJ : Json) (hid : lookupField "id" fs = some idJ)
    (hon : ((lookupField "is_online" fs).getD (.bool false)).truthy = true) :
    (t.playerInfo (pyStr idJ) = .error .auth →
      (∃ e, buildEntry t (.obj fs) = some e ∧ e.info = seedInfo fs) ∧
      buildEntry t (.obj fs) = buildEntry
        { t with playerInfo := fun q => if q = pyStr idJ then .error .comm else t.playerInfo q }
        (.obj fs)) ∧
    (t.cecStatus (pyStr idJ) = .error .auth →
      (∃ e, buildEntry t (.obj fs) = some e ∧ e.cec = .obj []) ∧
      buildEntry t (.obj fs) = buildEntry
        { t with cecStatus := fun q => if q = pyStr idJ then .error .comm else t.cecStatus q }
        (.obj fs)) ∧
    (t.nowPlaying (pyStr idJ) = .error .auth →
      (∃ e, buildEntry t (.obj fs) = some e ∧ e.now_playing = .null) ∧
      buildEntry t (.obj fs) = buildEntry
        { t with nowPlaying := fun q => if q = pyStr idJ then .error .comm else t.nowPlaying q }
        (.obj fs)) ∧
    (t.scheduleSlots (pyStr idJ) = .error .auth →
      (∃ e, buildEntry t (.obj fs) = some e ∧ e.schedule_slots = .arr []) ∧
      buildEntry t (.obj fs) = buildEntry
        { t with scheduleSlots := fun q => if q = pyStr idJ then .error .comm else t.scheduleSlots q }
        (.obj fs)) ∧
    (t.scheduleStatus (pyStr idJ) = .error .auth →
      (∃ e, buildEntry t (.obj fs) = some e ∧ e.schedule_status = .obj []) ∧
      buildEntry t (.obj fs) = buildEntry
        { t with scheduleStatus := fun q => if q = pyStr idJ then .error .comm else t.scheduleStatus q }
        (.obj fs)) ∧
    (t.players ≠ .error .auth → async_update_data t ≠ .error .authFailed) ∧
    (∀ rs, t.players = .ok (.arr rs) → (∀ r ∈ rs, wellFormedRecord r = true) →
      (async_update_data t).isOk = true) := by
  have hon2 : (seedEntry (pyStr idJ) fs).is_online.truthy = true := by
    rw [seedEntry_is_online]
    exact hon
  refine ⟨?_, ?_, ?_, ?_, ?_,
    fun hne => authFailed_only_from_list t hne,
    fun rs hp hwf => async_update_data_isOk_of_wf t rs hp hwf⟩ <;>
    intro hk <;>
      refine ⟨⟨fetchOnline t (pyStr idJ) (seedEntry (pyStr idJ) fs),
        by rw [buildEntry_obj t fs idJ hid, if_pos hon2],
        by rw [fetchOnline_eq]
           simp [AnthiasFleetManagerApi.async_get_player_info,
             AnthiasFleetManagerApi.async_get_cec_status,
             AnthiasFleetManagerApi.async_get_now_playing,
             AnthiasFleetManagerApi.async_get_schedule_slots,
             AnthiasFleetManagerApi.async_get_schedule_status, Except.map, hk]⟩, ?_⟩ <;>
        rw [buildEntry_obj t fs idJ hid, buildEntry_obj _ fs idJ hid,
          if_pos hon2, fetchOnline_eq, fetchOnline_eq] <;>
          simp [AnthiasFleetManagerApi.async_get_player_info,
            AnthiasFleetManagerApi.async_get_cec_status,
            AnthiasFleetManagerApi.async_get_now_playing,
            AnthiasFleetManagerApi.async_get_schedule_slots,
            AnthiasFleetManagerApi.async_get_schedule_status, Except.map, hk] <;>
            rw [if_pos hon]

end AnthiasCoordinator

namespace AnthiasCoordinator

/-- A transport with one online player on which every per-player
sub-fetch fails with an authentication error. -/
def tAuthSub : Transport :=
  { players := .ok (.arr [.obj [("id", .str "p1"), ("is_online", .bool true)]])
    playerInfo := fun _ => .error .auth
    cecStatus := fun _ => .error .auth
    nowPlaying := fun _ => .error .auth
    scheduleSlots := fun _ => .error .auth
    scheduleStatus := fun _ => .error .auth
    mediaFiles := .error .comm }

/-- C8 witness: a concrete online player whose CEC sub-fetch returns an
authentication error; the field defaults and the cycle succeeds. -/
theorem subfetch_auth_swallowed_witness :
    (∃ e, buildEntry tAuthSub
        (.obj [("id", Json.str "p1"), ("is_online", Json.bool true)]) = some e ∧
      e.cec = .obj []) ∧
    (async_update_data tAuthSub).isOk = true := by
  have h := subfetch_auth_swallowed tAuthSub
    [("id", Json.str "p1"), ("is_online", Json.bool true)] (Json.str "p1") rfl rfl
  exact ⟨(h.2.1 rfl).1,
    h.2.2.2.2.2.2 [Json.obj [("id", Json.str "p1"), ("is_online", Json.bool true)]]
      rfl (by simp [wellFormedRecord, lookupField])⟩

/-- C3 counterexample: a refresh cycle whose player-list fetch SUCCEEDS
(no Authentication or Communication Error) but which still fails,
because the returned list holds a record with no `id` field — refuting
"buildSnapshot fails in no other case". -/
theorem update_fails_without_list_failure :
    tBadRecord.players = .ok (.arr [.obj []]) ∧
    async_update_data tBadRecord = .error .unexpected := ⟨rfl, rfl⟩

/-- C3 (amended): if the player-list fetch fails, no snapshot is built
and the previously published one is retained with the failure flagged —
an Authentication Error surfacing as the distinct credential failure and
a Communication Error as the recoverable refresh failure; when the list
fetch succeeds and decodes to a sequence of mappings each holding an
`id`, the cycle succeeds (but it can still fail, with an unclassified
error, on a malformed list payload — see the counterexample). -/
theorem list_failure_classification (t : Transport) (prev : Option Snapshot) :
    (t.players = .error .auth → async_update_data t = .error .authFailed) ∧
    (t.players = .error .comm → async_update_data t = .error .updateFailed) ∧
    (∀ e, t.players = .error e →
      publishCycle prev (async_update_data t) = (prev, false)) ∧
    (∀ rs, t.players = .ok (.arr rs) → (∀ r ∈ rs, wellFormedRecord r = true) →
      (async_update_data t).isOk = true) := by
  refine ⟨?_, ?_, ?_, fun rs hp hwf => async_update_data_isOk_of_wf t rs hp hwf⟩
  · intro hp
    rw [async_update_data_eq t, hp]
  · intro hp
    rw [async_update_data_eq t, hp]
  · intro e hp
    cases e with
    | auth => rw [async_update_data_eq t, hp]; rfl
    | comm => rw [async_update_data_eq t, hp]; rfl

/-- A transport whose player-list call fails with HTTP 401/403. -/
def tAuthList : Transport :=
  { tZero with players := .error .auth }

/-- C3 witness: a 401 on the list call aborts with the credential
failure; a communication error aborts recoverably, retaining the
previous snapshot; a well-formed list response succeeds. -/
theorem list_failure_classification_witness :
    async_update_data tAuthList = .error .authFailed ∧
    async_update_data tZero = .error .updateFailed ∧
    publishCycle (some []) (async_update_data tZero) = (some [], false) ∧
    (async_update_data tKeys).isOk = true := by
  refine ⟨(list_failure_classification tAuthList none).1 rfl,
    (list_failure_classification tZero none).2.1 rfl,
    (list_failure_classification tZero (some [])).2.2.1 .comm rfl,
    (list_failure_classification tKeys none).2.2.2 [Json.obj [("id", Json.str "p1")]]
      rfl (by simp [wellFormedRecord, lookupField])⟩

end AnthiasCoordinator

namespace AnthiasCoordinator

/-- C9: after a successful cycle whose player-list call decoded to the
record sequence `rs`, the snapshot has an entry under key `k` exactly
when some record in `rs` is a mapping whose `id` field stringifies to
`k` — every listed player appears, and nothing else (in particular no
player from any earlier snapshot) does. -/
theorem snapshot_keys_are_listed_ids (t : Transport) (rs : List Json) (s : Snapshot)
    (hp : t.players = .ok (.arr rs)) (hs : async_update_data t = .ok s) (k : String) :
    (∃ e, (k, e) ∈ s) ↔
      ∃ fs, Json.obj fs ∈ rs ∧ ∃ idJ, lookupField "id" fs = some idJ ∧ pyStr idJ = k := by
  rw [async_update_data_ok t rs (async_get_players_ok_arr t rs hp)] at hs
  cases hbs : buildSnapshot t rs [] with
  | none => rw [hbs] at hs; cases hs
  | some s2 =>
    rw [hbs] at hs
    injection hs with hs2
    subst hs2
    have hmem : (∃ e, (k, e) ∈ s2) ↔ k ∈ s2.map Prod.fst := by
      constructor
      · rintro ⟨e, he⟩
        exact List.mem_map.mpr ⟨(k, e), he, rfl⟩
      · intro hk
        rcases List.mem_map.mp hk with ⟨p, hp2, hpk⟩
        exact ⟨p.2, by rw [← hpk]; exact hp2⟩
    rw [hmem, buildSnapshot_keys t rs [] s2 hbs k]
    simp only [List.map_nil, List.not_mem_nil, false_or]
    constructor
    · rintro ⟨p, hpmem, e, he, hek⟩
      rcases (buildEntry_some_id_iff t p k).mp ⟨e, he, hek⟩ with ⟨fs, rfl, idJ, hl, hpk⟩
      exact ⟨fs, hpmem, idJ, hl, hpk⟩
    · rintro ⟨fs, hpmem, idJ, hl, hpk⟩
      rcases (buildEntry_some_id_iff t (.obj fs) k).mpr ⟨fs, rfl, idJ, hl, hpk⟩
        with ⟨e, he, hek⟩
      exact ⟨.obj fs, hpmem, e, he, hek⟩

/-- C9 witness: the one-offline-player transport yields a snapshot whose
sole key is the stringified id of the sole listed record. -/
theorem snapshot_keys_are_listed_ids_witness :
    (∃ e, ("p1", e) ∈ ([("p1", seedEntry "p1" [("id", Json.str "p1")])] : Snapshot)) ↔
      ∃ fs, Json.obj fs ∈ [Json.obj [("id", Json.str "p1")]] ∧
        ∃ idJ, lookupField "id" fs = some idJ ∧ pyStr idJ = "p1" :=
  snapshot_keys_are_listed_ids tKeys [Json.obj [("id", Json.str "p1")]]
    [("p1", seedEntry "p1" [("id", Json.str "p1")])] rfl rfl "p1"

/-- C4 counterexample: the first call's fresh fetch returns the EMPTY
sequence; a second call 10 time units later (well inside the 300-unit
TTL) does not return the cached value without contacting the network —
it issues a second network call (and here returns fresh, different
data), so "exactly one network call" fails. -/
theorem media_cache_two_calls_empty :
    async_get_media_files { tZero with mediaFiles := .ok (.arr []) } 0
        { media_cache := .arr [], media_cache_ts := 0 } =
      (.ok (.arr []), { media_cache := .arr [], media_cache_ts := 0 }, 1) ∧
    async_get_media_files { tZero with mediaFiles := .ok (.arr [.num 1]) } 10
        { media_cache := .arr [], media_cache_ts := 0 } =
      (.ok (.arr [.num 1]), { media_cache := .arr [.num 1], media_cache_ts := 10 }, 1) ∧
    (async_get_media_files { tZero with mediaFiles := .ok (.arr []) } 0
        { media_cache := .arr [], media_cache_ts := 0 }).2.2 +
      (async_get_media_files { tZero with mediaFiles := .ok (.arr [.num 1]) } 10
        { media_cache := .arr [], media_cache_ts := 0 }).2.2 = 2 :=
  ⟨rfl, rfl, rfl⟩

/-- C4 (amended): when the first call's fresh fetch stored a NON-EMPTY
(truthy) sequence at time `t1`, a second call within the TTL window
returns the cached sequence, leaves the cache state unchanged, contacts
the network zero times — so the two calls together issue exactly one
network call.  (When the fetch stored an empty sequence, the second call
fetches again: see the counterexample.) -/
theorem media_cache_ttl_idempotent (tA tB : Transport) (st0 : MediaCacheState)
    (t1 t2 : Nat) (files : Json)
    (hfetch : AnthiasFleetManagerApi.async_get_media_files tA = .ok files)
    (hpath : ¬(t1 - st0.media_cache_ts < MEDIA_CACHE_TTL ∧ st0.media_cache.truthy = true))
    (hne : files.truthy = true)
    (httl : t2 - t1 < MEDIA_CACHE_TTL) :
    async_get_media_files tA t1 st0 =
      (.ok files, { media_cache := files, media_cache_ts := t1 }, 1) ∧
    async_get_media_files tB t2 { media_cache := files, media_cache_ts := t1 } =
      (.ok files, { media_cache := files, media_cache_ts := t1 }, 0) ∧
    (async_get_media_files tA t1 st0).2.2 +
      (async_get_media_files tB t2
        { media_cache := files, media_cache_ts := t1 }).2.2 = 1 := by
    have h1 : async_get_media_files tA t1 st0 =
        (.ok files, { media_cache := files, media_cache_ts := t1 }, 1) := by
      unfold async_get_media_files
      rw [if_neg hpath, hfetch]
    have h2 : async_get_media_files tB t2
        { media_cache := files, media_cache_ts := t1 } =
        (.ok files, { media_cache := files, media_cache_ts := t1 }, 0) := by
      unfold async_get_media_files
      rw [if_pos ⟨httl, hne⟩]
    exact ⟨h1, h2, by rw [h1, h2]; rfl⟩

/-- C4 witness: a non-empty fetch at time 0, a second call at time 10. -/
theorem media_cache_ttl_idempotent_witness :
    async_get_media_files { tZero with mediaFiles := .ok (.arr [.num 1]) } 0
        { media_cache := .arr [], media_cache_ts := 0 } =
      (.ok (.arr [.num 1]), { media_cache := .arr [.num 1], media_cache_ts := 0 }, 1) ∧
    async_get_media_files tZero 10
        { media_cache := .arr [.num 1], media_cache_ts := 0 } =
      (.ok (.arr [.num 1]), { media_cache := .arr [.num 1], media_cache_ts := 0 }, 0) ∧
    (async_get_media_files { tZero with mediaFiles := .ok (.arr [.num 1]) } 0
        { media_cache := .arr [], media_cache_ts := 0 }).2.2 +
      (async_get_media_files tZero 10
        { media_cache := .arr [.num 1], media_cache_ts := 0 }).2.2 = 1 :=
  media_cache_ttl_idempotent { tZero with mediaFiles := .ok (.arr [.num 1]) } tZero
    { media_cache := .arr [], media_cache_ts := 0 } 0 10 (.arr [.num 1]) rfl
    (by simp [Json.truthy]) rfl (by decide)

/-- C5: whenever the fresh-fetch path is taken and the fetch fails, the
error propagates to the caller and the cache state — both the cached
sequence and its timestamp — is exactly as before the call (one network
call was attempted, no stale fallback is returned). -/
theorem media_fetch_error_preserves_cache (t : Transport) (now : Nat)
    (st : MediaCacheState) (e : ApiErr)
    (hpath : ¬(now - st.media_cache_ts < MEDIA_CACHE_TTL ∧ st.media_cache.truthy = true))
    (herr : AnthiasFleetManagerApi.async_get_media_files t = .error e) :
    async_get_media_files t now st = (.error e, st, 1) := by
  unfold async_get_media_files
  rw [if_neg hpath, herr]

/-- C5 witness: a failing fetch on an expired cache propagates the error
and leaves the cache pair untouched. -/
theorem media_fetch_error_preserves_cache_witness :
    async_get_media_files tZero 400
        { media_cache := .arr [.num 1], media_cache_ts := 0 } =
      (.error .comm, { media_cache := .arr [.num 1], media_cache_ts := 0 }, 1) :=
  media_fetch_error_preserves_cache tZero 400
    { media_cache := .arr [.num 1], media_cache_ts := 0 } .comm
    (by simp [MEDIA_CACHE_TTL]) rfl

end AnthiasCoordinator

namespace AnthiasCoordinator

/-- A transport whose now-playing endpoint returns the (falsy, non-null,
non-mapping, non-sequence) body `""`. -/
def tEmptyStr : Transport :=
  { tZero with nowPlaying := fun _ => .ok (.str "") }

end AnthiasCoordinator

/-- C10 counterexample: the endpoint body `""` is none of null, the
empty mapping, or the empty sequence, yet `async_get_now_playing` does
not return it unchanged — Python truthiness maps it to null too. -/
theorem now_playing_empty_string_not_unchanged :
    AnthiasCoordinator.tEmptyStr.nowPlaying "p1" = .ok (.str "") ∧
    AnthiasFleetManagerApi.async_get_now_playing AnthiasCoordinator.tEmptyStr "p1" =
      .ok .null ∧
    ¬(Json.str "" = .null ∨ Json.str "" = .obj [] ∨ Json.str "" = .arr []) ∧
    Json.str "" ≠ Json.null := by
  refine ⟨rfl, rfl, ?_, ?_⟩ <;> simp

/-- C10 (amended): `async_get_now_playing` returns null exactly when the
decoded body is Python-falsy — null, `false`, `0`, the empty string, the
empty sequence, or the empty mapping — and returns every truthy body
unchanged. -/
theorem now_playing_falsy_to_null (t : Transport) (pid : String) (d : Json)
    (h : t.nowPlaying pid = .ok d) :
    (AnthiasFleetManagerApi.async_get_now_playing t pid = .ok .null ↔
      (d = .null ∨ d = .bool false ∨ d = .num 0 ∨ d = .str "" ∨
        d = .arr [] ∨ d = .obj [])) ∧
    (d.truthy = true → AnthiasFleetManagerApi.async_get_now_playing t pid = .ok d) := by
  have key : AnthiasFleetManagerApi.async_get_now_playing t pid =
      .ok (if d.truthy then d else .null) := by
    unfold AnthiasFleetManagerApi.async_get_now_playing
    rw [h]
    rfl
  constructor
  · rw [key, ← Json.truthy_eq_false_iff d]
    constructor
    · intro he
      by_cases ht : d.truthy = true
      · rw [if_pos ht] at he
        injection he with he2
        rw [he2] at ht
        simp [Json.truthy] at ht
      · simpa using ht
    · intro hf
      rw [if_neg (by simp [hf])]
  · intro ht
    rw [key, if_pos ht]

/-- C10 witness: the falsy body `""` maps to null; applying the theorem
at the concrete transport whose now-playing body is `""`. -/
theorem now_playing_falsy_to_null_witness :
    (AnthiasFleetManagerApi.async_get_now_playing AnthiasCoordinator.tEmptyStr "p2" =
        .ok .null ↔
      (Json.str "" = .null ∨ Json.str "" = .bool false ∨ Json.str "" = .num 0 ∨
        Json.str "" = .str "" ∨ Json.str "" = .arr [] ∨ Json.str "" = .obj [])) ∧
    ((Json.str "").truthy = true →
      AnthiasFleetManagerApi.async_get_now_playing AnthiasCoordinator.tEmptyStr "p2" =
        .ok (.str "")) :=
  now_playing_falsy_to_null AnthiasCoordinator.tEmptyStr "p2" (.str "") rfl
